import Mathlib

/-!
Shallow embedding of `src/test-fixtures/sample.py` (module `sample`).

The Python module defines two classes (`Application`, `ApiService`), one free
function (`format_message`) and three module-level constants.  Methods that
mutate `self` are embedded as state transformers returning the result paired
with the new state; `print` calls are embedded by returning the emitted text
as the method's result.
-/

/--
Embeds the free function `format_message(message, prefix=None)`.
The Python body is `if prefix: return f"{prefix}: {message}"` followed by
`return message`; `if prefix:` is a truthiness test, false for both `None`
and the empty string, so the optional argument is an `Option String` and a
supplied empty string behaves like an absent one.
-/
def format_message (message : String) (pfx : Option String := none) : String :=
  match pfx with
  | some p => if p = "" then message else p ++ ": " ++ message
  | none => message

/-- State of a Python `Application` object: fields set in `__init__`. -/
structure Application where
  name : String
  version : String
  _running : Bool
deriving DecidableEq

namespace Application

/-- `Application.__init__(self, name, version)`. -/
def init (name version : String) : Application :=
  { name := name, version := version, _running := false }

/-- `Application.get_name(self)`: returns `self.name`, state untouched. -/
def get_name (a : Application) : String × Application :=
  (a.name, a)

/-- `Application.set_name(self, name)`: assigns `self.name = name`. -/
def set_name (a : Application) (name : String) : Unit × Application :=
  ((), { a with name := name })

/-- `Application.start(self)`: sets `self._running = True` and prints
`Starting {name} v{version}`; the printed text is the returned result. -/
def start (a : Application) : String × Application :=
  ("Starting " ++ a.name ++ " v" ++ a.version, { a with _running := true })

/-- `Application.stop(self)`: sets `self._running = False` and prints
`Stopping {name}`; the printed text is the returned result. -/
def stop (a : Application) : String × Application :=
  ("Stopping " ++ a.name, { a with _running := false })

end Application

/-- A lifecycle call on an `Application`: either `start()` or `stop()`. -/
inductive LifecycleCall
  | startCall
  | stopCall
deriving DecidableEq

/-- Apply one lifecycle call to an `Application` state. -/
def applyCall (a : Application) : LifecycleCall → Application
  | LifecycleCall.startCall => (a.start).2
  | LifecycleCall.stopCall => (a.stop).2

/-- Run a sequence of lifecycle calls from a given state. -/
def runCalls (a : Application) (cs : List LifecycleCall) : Application :=
  cs.foldl applyCall a

/-- Whether the last call of a lifecycle-call sequence is `start()`
(`false` for the empty sequence). -/
def lastIsStart : List LifecycleCall → Bool
  | [] => false
  | [LifecycleCall.startCall] => true
  | [LifecycleCall.stopCall] => false
  | _ :: c :: cs => lastIsStart (c :: cs)

/-- State of a Python `ApiService` object: fields set in `__init__`. -/
structure ApiService where
  api_key : String
  timeout : Int
  retries : Int
deriving DecidableEq

namespace ApiService

/-- `ApiService.__init__(self, api_key, timeout=5000)`: stores the key and
timeout and sets `self.retries = 3`. -/
def init (api_key : String) (timeout : Int := 5000) : ApiService :=
  { api_key := api_key, timeout := timeout, retries := 3 }

/-- `ApiService.fetch_data(self, endpoint)`: stub, `return {}`.  The returned
dictionary is embedded as an association list, here always empty. -/
def fetch_data (s : ApiService) (endpoint : String) :
    (List (String × String)) × ApiService :=
  ([], s)

/-- `ApiService.post_data(self, endpoint, data)`: stub, `pass`, i.e. returns
`None`, embedded as `Unit`. -/
def post_data (s : ApiService) (endpoint : String)
    (data : List (String × String)) : Unit × ApiService :=
  ((), s)

end ApiService

/-- Module constant `DEFAULT_TIMEOUT = 5000`. -/
def DEFAULT_TIMEOUT : Int := 5000

/-- Module constant `MAX_RETRIES = 3`. -/
def MAX_RETRIES : Int := 3

/-- Module constant `API_VERSION = "v1"`. -/
def API_VERSION : String := "v1"

/-- Helper: the running flag after a run of lifecycle calls equals the
initial flag for the empty run, and otherwise records whether the last
call was `start()`. -/
theorem runCalls_running (cs : List LifecycleCall) (a : Application) :
    (runCalls a cs)._running =
      if cs.isEmpty then a._running else lastIsStart cs := by
  induction cs generalizing a with
  | nil => rfl
  | cons c cs ih =>
    cases cs with
    | nil =>
      cases c <;> simp [runCalls, applyCall, lastIsStart,
        Application.start, Application.stop]
    | cons c2 cs2 =>
      have h : runCalls a (c :: c2 :: cs2) = runCalls (applyCall a c) (c2 :: cs2) := rfl
      rw [h, ih]
      cases c <;> simp [lastIsStart]

/-- C1 counterexample: the claim says every *supplied* prefix yields
`prefix ++ ": " ++ message`, but a supplied empty-string prefix is falsy in
Python, so `format_message("hi", "")` returns `"hi"`, not `": hi"`. -/
theorem format_message_empty_prefix_cex :
    format_message "hi" (some "") = "hi" ∧ format_message "hi" (some "") ≠ ": hi" := by
  constructor
  · rfl
  · decide

/-- C1 (amended): `format_message "hi"` with no prefix is `"hi"`,
`format_message "hi" "LOG"` is `"LOG: hi"`; in general, with the prefix
absent the result is the bare message, and for every *nonempty* supplied
prefix the result is the prefix, a colon and a space, then the message. -/
theorem format_message_spec (message p : String) :
    format_message "hi" = "hi" ∧
    format_message "hi" (some "LOG") = "LOG: hi" ∧
    format_message message = message ∧
    (p ≠ "" → format_message message (some p) = p ++ ": " ++ message) := by
  refine ⟨rfl, rfl, rfl, fun hp => ?_⟩
  simp [format_message, hp]

/-- C1 witness: the amended theorem at `message = "hi"`, `p = "LOG"`. -/
theorem format_message_spec_witness :
    format_message "hi" (some "LOG") = "LOG" ++ ": " ++ "hi" :=
  (format_message_spec "hi" "LOG").2.2.2 (by decide)

/-- C2: after construction the `_running` flag is false; after any `start`
it is true; after any `stop` it is false; in every reachable state (any
sequence of lifecycle calls from construction) the flag equals "the last
lifecycle call was `start`". -/
theorem application_running_reflects_last_call (n v : String)
    (cs : List LifecycleCall) :
    (Application.init n v)._running = false ∧
    ((runCalls (Application.init n v) cs).start).2._running = true ∧
    ((runCalls (Application.init n v) cs).stop).2._running = false ∧
    (runCalls (Application.init n v) cs)._running = lastIsStart cs := by
  refine ⟨rfl, rfl, rfl, ?_⟩
  rw [runCalls_running]
  cases cs <;> simp [Application.init, lastIsStart]

/-- C3: `ApiService` construction defaults `timeout` to 5000 when it is not
supplied, stores the supplied value otherwise, and always sets `retries`
to 3. -/
theorem apiservice_init_defaults (k : String) (t : Int) :
    (ApiService.init k).timeout = 5000 ∧
    (ApiService.init k t).timeout = t ∧
    (ApiService.init k).retries = 3 ∧
    (ApiService.init k t).retries = 3 ∧
    (ApiService.init k).api_key = k ∧
    (ApiService.init k t).api_key = k :=
  ⟨rfl, rfl, rfl, rfl, rfl, rfl⟩

/-- C4: `fetch_data` returns the empty mapping and `post_data` returns
nothing, unconditionally (both are total in the embedding, so no error is
raised), and both leave the service state — `api_key`, `timeout`,
`retries` — unchanged. -/
theorem apiservice_stubs_trivial (s : ApiService) (e e2 : String)
    (d : List (String × String)) :
    (s.fetch_data e).1 = [] ∧
    (s.fetch_data e).2 = s ∧
    (s.post_data e2 d).1 = () ∧
    (s.post_data e2 d).2 = s :=
  ⟨rfl, rfl, rfl, rfl⟩

/-- C5: the module-level constants have exactly their literal values. -/
theorem module_constants_literal :
    DEFAULT_TIMEOUT = 5000 ∧ MAX_RETRIES = 3 ∧ API_VERSION = "v1" :=
  ⟨rfl, rfl, rfl⟩

/-- C6: getter/setter round trip — after `set_name s`, `get_name` returns
`s`; and on a freshly constructed `Application name version`, `get_name`
returns `name`. -/
theorem application_get_set_roundtrip (a : Application) (s n v : String) :
    (((a.set_name s).2).get_name).1 = s ∧
    ((Application.init n v).get_name).1 = n :=
  ⟨rfl, rfl⟩

/-- C7: frame conditions — `start` and `stop` change only `_running`,
leaving `name` and `version` unchanged; `set_name` changes only `name`,
leaving `version` and `_running` unchanged; `get_name` changes nothing. -/
theorem application_frame_conditions (a : Application) (s : String) :
    (a.start).2.name = a.name ∧ (a.start).2.version = a.version ∧
    (a.stop).2.name = a.name ∧ (a.stop).2.version = a.version ∧
    (a.set_name s).2.version = a.version ∧
    (a.set_name s).2._running = a._running ∧
    (a.get_name).2 = a :=
  ⟨rfl, rfl, rfl, rfl, rfl, rfl, rfl⟩

/-- C8: `format_message` is pure and deterministic — two calls with equal
message and prefix arguments give equal results; in the embedding it is a
function of its arguments alone, so it reads and writes no outside state. -/
theorem format_message_deterministic (m1 m2 : String) (p1 p2 : Option String)
    (hm : m1 = m2) (hp : p1 = p2) :
    format_message m1 p1 = format_message m2 p2 := by
  rw [hm, hp]

/-- C8 witness: determinism applied at concrete equal arguments. -/
theorem format_message_deterministic_witness :
    format_message "hi" (some "LOG") = format_message "hi" (some "LOG") :=
  format_message_deterministic "hi" "hi" (some "LOG") (some "LOG") rfl rfl

/-- C9: a supplied empty-string prefix behaves exactly like an absent one —
the truthiness test `if prefix:` rejects `""`, so the bare message is
returned with no colon prepended. -/
theorem format_message_empty_prefix_is_bare (m : String) :
    format_message m (some "") = m ∧
    format_message m (some "") = format_message m none :=
  ⟨rfl, rfl⟩

/-- C10: `start` and `stop` are idempotent on the `Application` state —
running either twice in a row yields the same state (same `name`,
`version` and `_running`) as running it once. -/
theorem application_start_stop_idempotent (a : Application) :
    ((a.start).2.start).2 = (a.start).2 ∧
    ((a.stop).2.stop).2 = (a.stop).2 :=
  ⟨rfl, rfl⟩
